import Mathlib

/-!
Verification of the federal-regulations aggregation services.

This file shallowly embeds the two Python modules of the repository:

* `federal_regulations_api.py` — a FastAPI service that fetches the Federal
  Register agency directory, filters it with a keyword/substring matcher
  against CFR title tables, concurrently fetches recent documents per agency,
  and caches an aggregated per-agency snapshot in two module-level globals.
* `regulation_api.py` — a Flask service with a single-slot cache carrying a
  `last_updated` timestamp and a 1-hour TTL on its main read endpoint.

Modelling conventions: machine time is `Int` seconds; `datetime` parsing is an
explicit `String → Option Int` parameter (the code's `datetime.fromisoformat`
wrapped in try/except); HTTP exchanges are values of an explicit response type;
Python dicts built by key assignment are insertion-ordered association lists;
Python `float` results of `round(x, 4)` are modelled as exact rationals with
round-half-to-even, mirroring CPython's rounding of the interesting values.
-/

namespace FedReg

/-- Substring containment on character lists: Python's `needle in hay` for
strings. The empty needle is contained in every haystack, as in Python. -/
def containsSub : List Char → List Char → Bool
  | [], needle => needle.isEmpty
  | h :: t, needle => needle.isPrefixOf (h :: t) || containsSub t needle

/-- Python's `needle in hay` on strings. -/
def strIn (needle hay : String) : Bool :=
  containsSub hay.data needle.data

/-- Python's `str.upper()` (the tables involved are ASCII). -/
def pyUpper (s : String) : String := ⟨s.data.map Char.toUpper⟩

/-- Python's `str.lower()` (the tables involved are ASCII). -/
def pyLower (s : String) : String := ⟨s.data.map Char.toLower⟩

/-- The 50 CFR title names: the values of `CFR_TITLE_TO_AGENCY` in
`federal_regulations_api.py`, in key order (titles 1..50). -/
def CFR_TITLE_NAMES : List String :=
  ["General Provisions", "Grants and Agreements", "The President", "Accounts",
   "Administrative Personnel", "Domestic Security", "Agriculture",
   "Aliens and Nationality", "Animals and Animal Products", "Energy",
   "Federal Elections", "Banks and Banking", "Business Credit and Assistance",
   "Aeronautics and Space", "Commerce and Foreign Trade",
   "Commercial Practices", "Commodity and Securities Exchanges",
   "Conservation of Power and Water Resources", "Customs Duties",
   "Employees\x27 Benefits", "Food and Drugs", "Foreign Relations", "Highways",
   "Housing and Urban Development", "Indians", "Internal Revenue",
   "Alcohol, Tobacco Products and Firearms", "Judicial Administration",
   "Labor", "Mineral Resources", "Money and Finance: Treasury",
   "National Defense", "Navigation and Navigable Waters", "Education",
   "Panama Canal", "Parks, Forests, and Public Property",
   "Patents, Trademarks, and Copyrights",
   "Pensions, Bonuses, and Veterans\x27 Relief", "Postal Service",
   "Protection of Environment", "Public Contracts and Property Management",
   "Public Health", "Public Lands: Interior",
   "Emergency Management and Assistance", "Public Welfare", "Shipping",
   "Telecommunication", "Federal Acquisition Regulations System",
   "Transportation", "Wildlife and Fisheries"]

/-- The keys of `AGENCY_KEYWORDS_MAP` in `federal_regulations_api.py`, in
insertion order (the mapped CFR title numbers are unused by the matcher). -/
def AGENCY_KEYWORDS : List String :=
  ["Agriculture", "Air Force", "Army", "Coast Guard", "Commerce", "Defense",
   "Education", "Energy", "Environmental Protection", "Federal Aviation",
   "Federal Communications", "Federal Election", "Federal Trade",
   "Food and Drug", "Health and Human Services", "Homeland Security",
   "Housing and Urban Development", "Interior", "Internal Revenue", "Justice",
   "Labor", "National Aeronautics", "Navy", "Nuclear Regulatory",
   "Postal Service", "Securities and Exchange", "Small Business",
   "Social Security", "State Department", "Transportation", "Treasury",
   "Veterans Affairs"]

/-- `matches_cfr_agency` from `federal_regulations_api.py`: uppercase the
agency name, return true if any keyword (uppercased) occurs in it, otherwise
if any CFR title name occurs in it or it occurs in any CFR title name. -/
def matches_cfr_agency (agency_name : String) : Bool :=
  let agency_upper := pyUpper agency_name
  AGENCY_KEYWORDS.any (fun keyword => strIn (pyUpper keyword) agency_upper) ||
  CFR_TITLE_NAMES.any (fun title_name =>
    strIn (pyUpper title_name) agency_upper ||
    strIn agency_upper (pyUpper title_name))

/-- `is_within_24_hours` from `federal_regulations_api.py`. The call
`datetime.fromisoformat(publication_date.replace('Z', '+00:00'))` wrapped in
the function's `try`/`except` is modelled by the explicit `parse` parameter
(`none` for any unparseable string, in which case the `except` branch returns
`False`); instants are `Int` seconds, so `timedelta(hours=24)` is `24 * 3600`
and the comparison is strict, as in the source. -/
def is_within_24_hours (parse : String → Option Int) (now : Int)
    (publication_date : String) : Bool :=
  match parse publication_date with
  | none => false
  | some pub_date => now - pub_date < 24 * 3600

/-- `estimate_document_size` from `federal_regulations_api.py`:
`size_map.get(doc_type, 50)` over the four-entry table. -/
def estimate_document_size (doc_type : String) : Nat :=
  if doc_type = "Rule" then 150
  else if doc_type = "Proposed Rule" then 120
  else if doc_type = "Notice" then 80
  else if doc_type = "Presidential Document" then 100
  else 50

/-- One raw result row of the Federal Register documents endpoint, holding the
requested field projection; `none` models a missing key or JSON `null`. -/
structure RawDoc where
  title : Option String
  document_number : Option String
  publication_date : Option String
  doc_type : Option String
  pdf_url : Option String
  html_url : Option String
  abstract : Option String
  deriving DecidableEq

/-- A normalized document as built inside `fetch_agency_documents`. -/
structure DocumentRecord where
  title : String
  document_number : String
  publication_date : String
  doc_type : String
  size_kb : Nat
  pdf_url : String
  html_url : String
  abstract : String
  is_new : Bool
  deriving DecidableEq

/-- Outcome of the HTTP GET issued by `fetch_agency_documents`: a transport
failure (an exception from `httpx`), a non-2xx status (so `raise_for_status`
raises `httpx.HTTPStatusError`), or a JSON body with an optional `count` and a
`results` array. -/
inductive FetchResponse where
  | transportError
  | httpError (status : Nat)
  | ok (count : Option Nat) (results : List RawDoc)
  deriving DecidableEq

/-- The per-row normalization in `fetch_agency_documents`: defaults via
`doc.get`, the size heuristic, the 200-character abstract truncation guarded
by Python truthiness (missing, `null` or empty abstract yields `""`), and the
recency flag. -/
def mkDocRecord (parse : String → Option Int) (now : Int)
    (doc : RawDoc) : DocumentRecord :=
  let doc_type := doc.doc_type.getD "Unknown"
  let pub_date := doc.publication_date.getD ""
  { title := doc.title.getD "Untitled"
    document_number := doc.document_number.getD ""
    publication_date := pub_date
    doc_type := doc_type
    size_kb := estimate_document_size doc_type
    pdf_url := doc.pdf_url.getD ""
    html_url := doc.html_url.getD ""
    abstract :=
      match doc.abstract with
      | none => ""
      | some s => if s = "" then "" else s.take 200 ++ "..."
    is_new := is_within_24_hours parse now pub_date }

/-- `fetch_agency_documents` from `federal_regulations_api.py`. The slug and
name only shape the outgoing request and log lines; the wire outcome for that
request is the `resp` argument. Both `except` arms return `([], 0)`; the
success arm returns the normalized rows and `data.get("count", 0)`. -/
def fetch_agency_documents (parse : String → Option Int) (now : Int)
    (agency_slug : Option String) (agency_name : String)
    (resp : FetchResponse) : List DocumentRecord × Nat :=
  match resp with
  | .transportError => ([], 0)
  | .httpError _ => ([], 0)
  | .ok count results => (results.map (mkDocRecord parse now), count.getD 0)

/-- Round-half-to-even to an integer, as CPython's `round` resolves ties. -/
def roundHalfEven (q : ℚ) : ℤ :=
  let f := ⌊q⌋
  let r := q - f
  if r < 1/2 then f
  else if 1/2 < r then f + 1
  else if f % 2 = 0 then f
  else f + 1

/-- Python's `round(q, 4)`, with the float modelled as an exact rational. -/
def pyRound4 (q : ℚ) : ℚ := (roundHalfEven (q * 10000) : ℚ) / 10000

/-- One agency object of the Federal Register `/agencies` directory, holding
the fields the service reads; `none` models a missing key or JSON `null`. -/
structure AgencyRecord where
  id : Option Nat
  slug : Option String
  name : Option String
  short_name : Option String
  agency_url : Option String
  deriving DecidableEq

/-- The per-agency value stored in the aggregated snapshot. -/
structure AgencyStats where
  document_count : Nat
  recent_documents : List DocumentRecord
  new_documents_count : Nat
  size_mb : ℚ
  agency_id : Option Nat
  slug : Option String
  url : String
  full_name : String
  deriving DecidableEq

/-- The upstream world one aggregation run observes: the agency directory
(the successful `fetch_all_agencies` result — its failure is fatal and
re-raised, so aggregation only proceeds from a directory), the documents
response per requested agency slug, the date parser, and the current time. -/
structure Env where
  directory : List AgencyRecord
  docs : Option String → FetchResponse
  parse : String → Option Int
  now : Int

/-- The dictionary key chosen in `process_agency`:
`short_name if short_name else agency_name`, with `doc.get` defaults. -/
def displayName (agency : AgencyRecord) : String :=
  let agency_name := agency.name.getD "Unknown"
  let short_name := agency.short_name.getD ""
  if short_name = "" then agency_name else short_name

/-- The body of the inner `process_agency` coroutine of
`aggregate_agency_statistics`: fetch the agency's documents, then build the
key/value pair it assigns into `agency_stats`. Its `try`/`except` arm is dead
in this pure model, so every task contributes its pair. -/
def process_agency (env : Env) (agency : AgencyRecord) : String × AgencyStats :=
  let agency_slug := agency.slug
  let agency_name := agency.name.getD "Unknown"
  let fetched := fetch_agency_documents env.parse env.now agency_slug
    agency_name (env.docs agency_slug)
  let documents := fetched.1
  let total_size_kb := (documents.map DocumentRecord.size_kb).sum
  (displayName agency,
   { document_count := fetched.2
     recent_documents := documents
     new_documents_count := (documents.filter DocumentRecord.is_new).length
     size_mb := pyRound4 ((total_size_kb : ℚ) / 1024)
     agency_id := agency.id
     slug := agency_slug
     url := agency.agency_url.getD ""
     full_name := agency_name })

/-- Python dict assignment `m[k] = v` on an insertion-ordered association
list: overwrite in place when the key exists, else append. -/
def dictInsert (k : String) (v : AgencyStats) :
    List (String × AgencyStats) → List (String × AgencyStats)
  | [] => [(k, v)]
  | (k', v') :: rest =>
    if k' = k then (k, v) :: rest else (k', v') :: dictInsert k v rest

/-- Python dict lookup on the association-list model. -/
def lookupA (k : String) : List (String × AgencyStats) → Option AgencyStats
  | [] => none
  | (k', v) :: rest => if k' = k then some v else lookupA k rest

/-- The directory filter of `aggregate_agency_statistics`:
`[a for a in agencies if matches_cfr_agency(a.get("name", ""))]`. -/
def cfr_agencies (env : Env) : List AgencyRecord :=
  env.directory.filter (fun a => matches_cfr_agency (a.name.getD ""))

/-- The `agency_stats` dict after all `process_agency` tasks have written
their entries, writes happening in completion order `order` (the semaphore
and network make that order a schedule choice, not a function of the data). -/
def runSchedule (env : Env) (order : List AgencyRecord) :
    List (String × AgencyStats) :=
  order.foldl
    (fun m a => dictInsert (process_agency env a).1 (process_agency env a).2 m)
    []

/-- `aggregate_agency_statistics` from `federal_regulations_api.py`, as a
function of the completion order of its concurrent tasks: run every
per-agency task over the matcher-filtered directory, then drop the entries
with `document_count == 0`. -/
def aggregate_agency_statistics (env : Env) (order : List AgencyRecord) :
    List (String × AgencyStats) :=
  (runSchedule env order).filter (fun kv => 0 < kv.2.document_count)

/-- The aggregation with the canonical task order, the filtered directory
order itself. -/
def aggregateStats (env : Env) : List (String × AgencyStats) :=
  aggregate_agency_statistics env (cfr_agencies env)

/-- The module-level globals `_cache` and `_cache_timestamp` of
`federal_regulations_api.py`; both start as `None`. -/
structure FRState where
  cache : Option (List (String × AgencyStats))
  timestamp : Option Int
  deriving DecidableEq

/-- The JSON body returned by `/api/agency-stats`. -/
structure StatsResponse where
  last_updated : Option Int
  total_agencies : Nat
  agencies : List (String × AgencyStats)
  deriving DecidableEq

/-- The `/api/agency-stats` handler `agency_statistics`: when `_cache is
None`, aggregate and set both `_cache` and `_cache_timestamp`; then serve the
cache. -/
def agency_statistics (env : Env) (now : Int) (st : FRState) :
    StatsResponse × FRState :=
  let st' : FRState :=
    match st.cache with
    | none => ⟨some (aggregateStats env), some now⟩
    | some _ => st
  let c := st'.cache.getD []
  ({ last_updated := st'.timestamp, total_agencies := c.length, agencies := c },
   st')

/-- The `/api/agency/{slug}` handler `agency_details`: when `_cache is None`,
aggregate and set `_cache` only — `_cache_timestamp` is not touched; then
return the first cached entry whose `slug` field equals the path slug, or the
404 body (modelled as `none`) when none matches. -/
def agency_details (env : Env) (slug : String) (st : FRState) :
    Option AgencyStats × FRState :=
  let st' : FRState :=
    match st.cache with
    | none => { st with cache := some (aggregateStats env) }
    | some _ => st
  let c := st'.cache.getD []
  ((c.find? (fun kv => kv.2.slug = some slug)).map Prod.snd, st')

/-- The cache effect of the `/` handler `index`: when `_cache is None`,
aggregate and set both `_cache` and `_cache_timestamp` (the HTML it renders
is out of scope). -/
def index_refresh (env : Env) (now : Int) (st : FRState) : FRState :=
  match st.cache with
  | none => ⟨some (aggregateStats env), some now⟩
  | some _ => st

end FedReg

namespace RegApi

/-- One regulation row of `regulation_api.py`'s data set. -/
structure FRegulation where
  title : String
  word_count : Nat
  size_mb : ℚ
  last_modified : String
  deriving DecidableEq

/-- One agency block of `regulation_api.py`'s data set. -/
structure FAgency where
  agency_name : String
  regulation_count : Nat
  total_word_count : Nat
  total_size_mb : ℚ
  average_words_per_regulation : Nat
  average_size_mb : ℚ
  regulations : List FRegulation
  deriving DecidableEq

/-- The payload held by `regulation_api.py`'s cache: the `agencies` list of
the fetched result (its `metadata` block is only echoed to logs and to the
response body and plays no role in the cache or lookup logic). -/
structure RegData where
  agencies : List FAgency
  deriving DecidableEq

/-- The module-level `regulations_cache` dict of `regulation_api.py`:
`{'last_updated': None, 'data': []}` initially; `data = none` models the
initial (falsy) empty list, `some d` a fetched result. -/
structure RegCache where
  last_updated : Option Int
  data : Option RegData
  deriving DecidableEq

/-- The `/api/regulations` handler `get_regulations`: refresh when
`last_updated is None or now - last_updated > timedelta(hours=1)` — fetch
(`fetched` is what `get_real_ecfr_data()` returns on this call), overwrite
`data` wholesale and set `last_updated` to now — otherwise serve the cached
data unchanged. Returns the served payload and the new cache state. -/
def get_regulations (fetched : RegData) (now : Int) (st : RegCache) :
    Option RegData × RegCache :=
  match st.last_updated with
  | none => (some fetched, ⟨some now, some fetched⟩)
  | some t =>
    if 3600 < now - t then (some fetched, ⟨some now, some fetched⟩)
    else (st.data, st)

/-- The `/api/regulations/agency/<agency_name>` handler
`get_agency_regulations`: populate the cache (both fields) if `data` is
falsy, then return the first agency whose lowercased `agency_name` contains
the lowercased query, or the 404 error body when none does. -/
def get_agency_regulations (fetched : RegData) (now : Int)
    (agency_name : String) (st : RegCache) :
    (FAgency ⊕ Nat × String) × RegCache :=
  let st' : RegCache :=
    match st.data with
    | none => ⟨some now, some fetched⟩
    | some _ => st
  let result := st'.data.getD fetched
  match result.agencies.find?
      (fun a => FedReg.strIn (FedReg.pyLower agency_name)
        (FedReg.pyLower a.agency_name)) with
  | some a => (Sum.inl a, st')
  | none => (Sum.inr (404, "Agency not found: " ++ agency_name), st')

/-- A sample agency block, shaped like the entries of `get_sample_data()`. -/
def sampleDOE : FAgency :=
  { agency_name := "Department of Energy (DOE)"
    regulation_count := 8
    total_word_count := 21600
    total_size_mb := 216/1000
    average_words_per_regulation := 2700
    average_size_mb := 27/1000
    regulations := [] }

end RegApi

namespace FedReg

/-- A raw result row carrying only a document type, as the size heuristic
scenarios need. -/
def docOfType (t : String) : RawDoc :=
  { title := none, document_number := none, publication_date := none
    doc_type := some t, pdf_url := none, html_url := none, abstract := none }

/-- The end-to-end scenario environment of the spec: a directory with the
Department of Energy and a non-matching bakery council, and a documents
endpoint reporting 3 results (types Rule, Notice, Notice) for `energy`. -/
def envDOE : Env :=
  { directory :=
      [{ id := some 1, slug := some "energy",
         name := some "Department of Energy", short_name := some "DOE",
         agency_url := some "https://www.energy.gov" },
       { id := some 2, slug := some "acme",
         name := some "Acme Bakery Council", short_name := none,
         agency_url := none }]
    docs := fun s =>
      if s = some "energy" then
        .ok (some 3) [docOfType "Rule", docOfType "Notice", docOfType "Notice"]
      else .transportError
    parse := fun _ => none
    now := 0 }

/-- A matching agency whose display name collides with `agencyBeta`. -/
def agencyAlpha : AgencyRecord :=
  { id := some 11, slug := some "a", name := some "Energy Alpha",
    short_name := some "ENG", agency_url := none }

/-- A matching agency whose display name collides with `agencyAlpha`. -/
def agencyBeta : AgencyRecord :=
  { id := some 12, slug := some "b", name := some "Energy Beta",
    short_name := some "ENG", agency_url := none }

/-- An upstream world with a display-name collision: both agencies match the
CFR filter and share the display name `ENG`, with reported totals 5 and 7. -/
def envClash : Env :=
  { directory := [agencyAlpha, agencyBeta]
    docs := fun s =>
      if s = some "a" then .ok (some 5) []
      else if s = some "b" then .ok (some 7) []
      else .transportError
    parse := fun _ => none
    now := 0 }

/-- An upstream world with two matching agencies and distinct display names. -/
def envTwo : Env :=
  { directory :=
      [{ id := some 1, slug := some "energy",
         name := some "Department of Energy", short_name := some "DOE",
         agency_url := none },
       { id := some 2, slug := some "transportation",
         name := some "Department of Transportation", short_name := some "DOT",
         agency_url := none }]
    docs := fun s =>
      if s = some "energy" then .ok (some 3) [docOfType "Rule"]
      else if s = some "transportation" then .ok (some 2) []
      else .transportError
    parse := fun _ => none
    now := 0 }

/-- The keys of the association-list dict model. -/
def keysOf (m : List (String × AgencyStats)) : List String := m.map Prod.fst

end FedReg

namespace FedReg

/-- A raw result row with a nonempty abstract. -/
def docWithAbstract : RawDoc :=
  { docOfType "Rule" with abstract := some "Hi" }

theorem process_agency_fst (env : Env) (a : AgencyRecord) :
    (process_agency env a).1 = displayName a := rfl

theorem dictInsert_eq_append (k : String) (v : AgencyStats) :
    ∀ m : List (String × AgencyStats), k ∉ keysOf m →
      dictInsert k v m = m ++ [(k, v)] := by
  intro m
  induction m with
  | nil => intro _; rfl
  | cons p rest ih =>
    obtain ⟨k', v'⟩ := p
    intro h
    simp only [keysOf, List.map_cons, List.mem_cons] at h
    push_neg at h
    simp only [dictInsert]
    rw [if_neg fun hc => h.1 hc.symm]
    simp [ih (by simpa [keysOf] using h.2)]

theorem foldl_dictInsert_eq_append (env : Env) :
    ∀ (order : List AgencyRecord) (m : List (String × AgencyStats)),
      (keysOf m ++ order.map displayName).Nodup →
      order.foldl (fun m a =>
        dictInsert (process_agency env a).1 (process_agency env a).2 m) m
      = m ++ order.map (process_agency env) := by
  intro order
  induction order with
  | nil => intro m _; simp
  | cons a t ih =>
    intro m h
    simp only [List.map_cons] at h
    have hka : displayName a ∉ keysOf m := by
      intro hmem
      rcases List.nodup_append.mp h with ⟨_, _, hdisj⟩
      exact hdisj hmem (List.mem_cons_self _ _)
    simp only [List.foldl_cons]
    rw [dictInsert_eq_append (process_agency env a).1 (process_agency env a).2
      m hka]
    rw [ih (m ++ [((process_agency env a).1, (process_agency env a).2)])
      (by simpa [keysOf, process_agency_fst, List.append_assoc] using h)]
    rw [List.append_assoc]
    rfl

theorem runSchedule_eq_map (env : Env) (order : List AgencyRecord)
    (hnd : (order.map displayName).Nodup) :
    runSchedule env order = order.map (process_agency env) := by
  have := foldl_dictInsert_eq_append env order [] (by simpa [keysOf] using hnd)
  simpa [runSchedule] using this

theorem length_filter_pos_eq_sub (f : AgencyRecord → Nat) :
    ∀ l : List AgencyRecord,
      (l.filter (fun a => 0 < f a)).length
        = l.length - (l.filter (fun a => f a = 0)).length := by
  intro l
  induction l with
  | nil => rfl
  | cons a t ih =>
    have hle : (t.filter (fun a => f a = 0)).length ≤ t.length :=
      t.length_filter_le _
    by_cases h : f a = 0
    · have h1 : ¬ (0 < f a) := by omega
      simp [List.filter_cons, h, h1]
      rw [ih]
    · have h1 : 0 < f a := by omega
      simp [List.filter_cons, h, h1]
      rw [ih]
      omega

theorem lookupA_none_iff (k : String) :
    ∀ m, lookupA k m = none ↔ k ∉ keysOf m := by
  intro m
  induction m with
  | nil => simp [lookupA, keysOf]
  | cons p rest ih =>
    obtain ⟨k', v⟩ := p
    by_cases h : k' = k
    · subst h
      simp [lookupA, keysOf]
    · simp only [lookupA, if_neg h, keysOf, List.map_cons, List.mem_cons, ih,
        keysOf]
      constructor
      · intro hk
        rintro (rfl | hc)
        · exact h rfl
        · exact hk hc
      · intro hk
        exact fun hc => hk (Or.inr hc)

theorem lookupA_eq_some_iff (k : String) (v : AgencyStats) :
    ∀ m, (keysOf m).Nodup → (lookupA k m = some v ↔ (k, v) ∈ m) := by
  intro m
  induction m with
  | nil => simp [lookupA]
  | cons p rest ih =>
    obtain ⟨k', v'⟩ := p
    intro hnd
    have hnd' : k' ∉ keysOf rest ∧ (keysOf rest).Nodup := by
      simpa [keysOf] using hnd
    by_cases h : k' = k
    · subst h
      simp only [lookupA, if_pos rfl, List.mem_cons]
      constructor
      · intro hv
        exact Or.inl (by cases hv; rfl)
      · rintro (hv | hv)
        · cases hv; rfl
        · exact absurd (List.mem_map_of_mem Prod.fst hv) hnd'.1
    · simp only [lookupA, if_neg h, List.mem_cons, ih hnd'.2]
      constructor
      · exact fun hv => Or.inr hv
      · rintro (hv | hv)
        · exact absurd (congrArg Prod.fst hv).symm h
        · exact hv

theorem lookupA_eq_of_perm {m₁ m₂ : List (String × AgencyStats)}
    (hp : m₁.Perm m₂) (hnd : (keysOf m₁).Nodup) (k : String) :
    lookupA k m₁ = lookupA k m₂ := by
  have hnd₂ : (keysOf m₂).Nodup := ((hp.map Prod.fst).nodup_iff).mp hnd
  cases hv : lookupA k m₁ with
  | some v =>
    have hm := (lookupA_eq_some_iff k v m₁ hnd).mp hv
    exact ((lookupA_eq_some_iff k v m₂ hnd₂).mpr (hp.mem_iff.mp hm)).symm
  | none =>
    have hm := (lookupA_none_iff k m₁).mp hv
    have hm₂ : k ∉ keysOf m₂ := fun hc => hm ((hp.map Prod.fst).mem_iff.mpr hc)
    exact ((lookupA_none_iff k m₂).mpr hm₂).symm

end FedReg

namespace FedReg

/-- C2 counterexample: the claim asserts `matches_cfr_agency("") == False`,
but the matcher's second pass tests `agency_upper in title_name.upper()`, and
in Python the empty string is a substring of every string, so the first CFR
title already makes the empty agency name match. -/
theorem matches_empty_string_cex : matches_cfr_agency "" = true := by decide

/-- C2 (amended): `matches_cfr_agency("")` is `True` — an empty (and hence a
missing, defaulted-to-empty) agency name always matches, because the second
pass checks containment of the name inside each CFR title name and the empty
string is contained in every string — while
`matches_cfr_agency("Department of Random Nonexistent Office")` is `False`. -/
theorem matches_cfr_agency_edge_cases :
    matches_cfr_agency "" = true
    ∧ matches_cfr_agency "Department of Random Nonexistent Office" = false :=
  ⟨by decide, by decide⟩

/-- C3: whatever the agency slug and name, a transport error or a non-2xx
response on the per-agency document fetch makes `fetch_agency_documents`
return `([], 0)`; no exception escapes (the function is total), so one
agency's failure cannot abort the aggregation. -/
theorem fetch_agency_documents_failure :
    ∀ (parse : String → Option Int) (now : Int) (slug : Option String)
      (name : String),
      fetch_agency_documents parse now slug name .transportError = ([], 0)
      ∧ ∀ status : Nat,
          fetch_agency_documents parse now slug name (.httpError status)
            = ([], 0) :=
  fun _ _ _ _ => ⟨rfl, fun _ => rfl⟩

/-- C4: `is_within_24_hours` is true exactly when the date parses and now
minus the parsed date is strictly below 24 hours; an unparseable date gives
false (and the function is total, so nothing is raised); a date exactly 23
hours old is new, one exactly 25 hours old is not. -/
theorem is_within_24_hours_spec :
    ∀ (parse : String → Option Int) (now : Int) (s : String),
      (is_within_24_hours parse now s = true
        ↔ ∃ t, parse s = some t ∧ now - t < 24 * 3600)
      ∧ (parse s = none → is_within_24_hours parse now s = false)
      ∧ is_within_24_hours (fun _ => some (now - 23 * 3600)) now s = true
      ∧ is_within_24_hours (fun _ => some (now - 25 * 3600)) now s = false := by
  intro parse now s
  refine ⟨?_, ?_, ?_, ?_⟩
  · cases h : parse s with
    | none => simp [is_within_24_hours, h]
    | some t => simp [is_within_24_hours, h]
  · intro h
    simp [is_within_24_hours, h]
  · simp only [is_within_24_hours]
    simp only [decide_eq_true_eq]
    omega
  · simp only [is_within_24_hours]
    simp only [decide_eq_false_iff_not]
    omega

/-- C4 witness: the specification applied to an unparseable date string. -/
theorem is_within_24_hours_witness :
    ((fun _ : String => (none : Option Int)) "not-a-date" = none)
    ∧ is_within_24_hours (fun _ => none) 0 "not-a-date" = false :=
  ⟨rfl, (is_within_24_hours_spec (fun _ => none) 0 "not-a-date").2.1 rfl⟩

/-- C6: on a successful response, each produced record is the normalization
of the corresponding result row, and its abstract field is the abstract
truncated to 200 characters with an ellipsis suffix when an abstract is
present and nonempty, and the empty string when it is absent or empty. -/
theorem abstract_truncation_spec :
    ∀ (parse : String → Option Int) (now : Int) (slug : Option String)
      (name : String) (count : Option Nat) (results : List RawDoc),
      (fetch_agency_documents parse now slug name (.ok count results)).1
        = results.map (mkDocRecord parse now)
      ∧ ∀ d : RawDoc,
          ((d.abstract = none ∨ d.abstract = some "") →
            (mkDocRecord parse now d).abstract = "")
          ∧ ∀ s, d.abstract = some s → s ≠ "" →
              (mkDocRecord parse now d).abstract = s.take 200 ++ "..." := by
  intro parse now slug name count results
  refine ⟨rfl, fun d => ⟨?_, ?_⟩⟩
  · rintro (h | h) <;> simp [mkDocRecord, h]
  · intro s hs hne
    simp [mkDocRecord, hs, hne]

/-- C6 witness: the truncation rule applied to a row holding the nonempty
abstract "Hi". -/
theorem abstract_truncation_witness :
    (docWithAbstract.abstract = some "Hi")
    ∧ ("Hi" ≠ "")
    ∧ (mkDocRecord (fun _ => none) 0 docWithAbstract).abstract
        = "Hi".take 200 ++ "..." :=
  ⟨rfl, by decide,
   ((abstract_truncation_spec (fun _ => none) 0 none "" none []).2
     docWithAbstract).2 "Hi" rfl (by decide)⟩

/-- C9: from the empty state (both globals `None`), the per-slug lookup
endpoint populates `_cache` but leaves `_cache_timestamp` unset — so a state
with a populated snapshot and no timestamp is reachable — whereas the stats
endpoint and the index page set both globals together. -/
theorem agency_details_frame_effect :
    ∀ (env : Env) (slug : String) (now : Int),
      (agency_details env slug ⟨none, none⟩).2
        = ⟨some (aggregateStats env), none⟩
      ∧ (agency_statistics env now ⟨none, none⟩).2
        = ⟨some (aggregateStats env), some now⟩
      ∧ index_refresh env now ⟨none, none⟩
        = ⟨some (aggregateStats env), some now⟩ :=
  fun _ _ _ => ⟨rfl, rfl, rfl⟩

end FedReg

namespace RegApi

/-- C8: in the 1-hour-TTL service, a read with a populated cache older than
one hour behaves exactly like a read on the empty cache — it serves the fresh
fetch, overwrites the snapshot wholesale and sets `last_updated` to now —
while a read within one hour of `last_updated` serves the cached data and
leaves the cache untouched. -/
theorem get_regulations_ttl_spec :
    ∀ (fetched : RegData) (now t : Int) (d : Option RegData),
      (3600 < now - t →
        get_regulations fetched now ⟨some t, d⟩
          = get_regulations fetched now ⟨none, none⟩
        ∧ get_regulations fetched now ⟨some t, d⟩
          = (some fetched, ⟨some now, some fetched⟩))
      ∧ (now - t ≤ 3600 →
        get_regulations fetched now ⟨some t, d⟩ = (d, ⟨some t, d⟩)) := by
  intro fetched now t d
  constructor
  · intro h
    constructor <;> simp [get_regulations, if_pos h]
  · intro h
    have h' : ¬ (3600 < now - t) := by omega
    simp [get_regulations, if_neg h']

/-- C8 witness: the TTL rule at a 2.5-hour-old cache (refresh) and at a
100-second-old cache (served unchanged). -/
theorem get_regulations_ttl_witness :
    (3600 < (10000 : Int) - 1000)
    ∧ get_regulations ⟨[sampleDOE]⟩ 10000 ⟨some 1000, some ⟨[sampleDOE]⟩⟩
        = (some ⟨[sampleDOE]⟩, ⟨some 10000, some ⟨[sampleDOE]⟩⟩)
    ∧ ((1000 : Int) - 900 ≤ 3600)
    ∧ get_regulations ⟨[sampleDOE]⟩ 1000 ⟨some 900, some ⟨[sampleDOE]⟩⟩
        = (some ⟨[sampleDOE]⟩, ⟨some 900, some ⟨[sampleDOE]⟩⟩) :=
  ⟨by norm_num,
   ((get_regulations_ttl_spec ⟨[sampleDOE]⟩ 10000 1000 (some ⟨[sampleDOE]⟩)).1
     (by norm_num)).2,
   by norm_num,
   (get_regulations_ttl_spec ⟨[sampleDOE]⟩ 1000 900 (some ⟨[sampleDOE]⟩)).2
     (by norm_num)⟩

end RegApi

namespace FedReg

/-- C1: if the display names of the matched agencies are pairwise distinct,
then for any completion order of the per-agency tasks the aggregated mapping
has exactly M - K entries — M the number of directory agencies satisfying the
matcher, K the number of those reporting a total document count of 0 — and
every entry kept has a positive document count. -/
theorem aggregate_card_spec (env : Env) (order : List AgencyRecord)
    (horder : order.Perm (cfr_agencies env))
    (hnd : ((cfr_agencies env).map displayName).Nodup) :
    (aggregate_agency_statistics env order).length
      = (cfr_agencies env).length
        - ((cfr_agencies env).filter
            (fun a => (process_agency env a).2.document_count = 0)).length
    ∧ ∀ kv ∈ aggregate_agency_statistics env order,
        0 < kv.2.document_count := by
  have hnd' : (order.map displayName).Nodup :=
    ((horder.map displayName).nodup_iff).mpr hnd
  constructor
  · unfold aggregate_agency_statistics
    rw [runSchedule_eq_map env order hnd']
    rw [List.filter_map, List.length_map]
    rw [List.Perm.length_eq (horder.filter _)]
    have := length_filter_pos_eq_sub
      (fun a => (process_agency env a).2.document_count) (cfr_agencies env)
    simpa [Function.comp] using this
  · intro kv hkv
    unfold aggregate_agency_statistics at hkv
    simpa using (List.mem_filter.mp hkv).2

/-- C1 witness: the end-to-end scenario — the matcher keeps only the
Department of Energy (M = 1), which reports 3 documents (K = 0), so the
snapshot has exactly one entry and it has a positive count. -/
theorem aggregate_card_witness :
    (cfr_agencies envDOE).Perm (cfr_agencies envDOE)
    ∧ ((cfr_agencies envDOE).map displayName).Nodup
    ∧ ((aggregate_agency_statistics envDOE (cfr_agencies envDOE)).length
        = (cfr_agencies envDOE).length
          - ((cfr_agencies envDOE).filter
              (fun a => (process_agency envDOE a).2.document_count = 0)).length
       ∧ ∀ kv ∈ aggregate_agency_statistics envDOE (cfr_agencies envDOE),
           0 < kv.2.document_count) :=
  ⟨List.Perm.refl _, by decide,
   aggregate_card_spec envDOE (cfr_agencies envDOE) (List.Perm.refl _)
     (by decide)⟩

/-- C5: the size heuristic returns the table values for the four known types
and 50 otherwise; each aggregated entry's `size_mb` is the sum of its fetched
documents' `size_kb` divided by 1024 rounded to 4 decimal places; and three
documents of types Rule, Notice, Notice sum to 310 KB, whose rounded MB value
is 0.3027. -/
theorem size_heuristic_spec :
    estimate_document_size "Rule" = 150
    ∧ estimate_document_size "Proposed Rule" = 120
    ∧ estimate_document_size "Notice" = 80
    ∧ estimate_document_size "Presidential Document" = 100
    ∧ (∀ s : String, s ≠ "Rule" → s ≠ "Proposed Rule" → s ≠ "Notice" →
        s ≠ "Presidential Document" → estimate_document_size s = 50)
    ∧ (∀ (env : Env) (a : AgencyRecord),
        (process_agency env a).2.size_mb
          = pyRound4 ((((fetch_agency_documents env.parse env.now a.slug
              (a.name.getD "Unknown") (env.docs a.slug)).1.map
              DocumentRecord.size_kb).sum : ℚ) / 1024))
    ∧ (∀ (parse : String → Option Int) (now : Int) (slug : Option String)
        (name : String) (count : Option Nat),
        ((fetch_agency_documents parse now slug name
          (.ok count
            [docOfType "Rule", docOfType "Notice", docOfType "Notice"])).1.map
              DocumentRecord.size_kb).sum = 150 + 80 + 80)
    ∧ pyRound4 ((150 + 80 + 80 : ℚ) / 1024) = 3027 / 10000 := by
  refine ⟨rfl, rfl, rfl, rfl, ?_, ?_, ?_, ?_⟩
  · intro s h1 h2 h3 h4
    simp [estimate_document_size, h1, h2, h3, h4]
  · intro env a
    rfl
  · intro parse now slug name count
    rfl
  · norm_num [pyRound4, roundHalfEven]

/-- C5 witness: an unrecognized document type gets the 50 KB default. -/
theorem size_heuristic_witness :
    ("Executive Order" ≠ "Rule") ∧ ("Executive Order" ≠ "Proposed Rule")
    ∧ ("Executive Order" ≠ "Notice")
    ∧ ("Executive Order" ≠ "Presidential Document")
    ∧ estimate_document_size "Executive Order" = 50 :=
  ⟨by decide, by decide, by decide, by decide,
   size_heuristic_spec.2.2.2.2.1 "Executive Order" (by decide) (by decide)
     (by decide) (by decide)⟩

/-- C7 counterexample: identical upstream responses, but a display-name
collision (both matched agencies have short name "ENG", reporting totals 5
and 7). The two completion orders of the same fetches are both permutations
of the matched directory, yet one run's snapshot carries count 7 at "ENG" and
the other's carries 5 — the per-agency document counts differ. -/
theorem aggregate_schedule_cex :
    ((aggregate_agency_statistics envClash [agencyAlpha, agencyBeta]).map
        (fun kv => (kv.1, kv.2.document_count)) = [("ENG", 7)])
    ∧ ((aggregate_agency_statistics envClash [agencyBeta, agencyAlpha]).map
        (fun kv => (kv.1, kv.2.document_count)) = [("ENG", 5)])
    ∧ [agencyAlpha, agencyBeta].Perm (cfr_agencies envClash)
    ∧ [agencyBeta, agencyAlpha].Perm (cfr_agencies envClash) :=
  ⟨by decide, by decide, by decide, by decide⟩

/-- C7 (amended): calling aggregate() twice with identical upstream responses
yields snapshots with identical key sets and identical per-agency
document_count values provided no two matched agencies share a display name;
with a collision, last-write-wins in completion order can make the surviving
count (and, when the colliding counts straddle zero, even the key set)
differ between the two runs. Formally: under the no-collision hypothesis,
any two completion orders of the same responses yield snapshots that agree
on lookup at every key. -/
theorem aggregate_order_invariant (env : Env) (o₁ o₂ : List AgencyRecord)
    (h₁ : o₁.Perm (cfr_agencies env)) (h₂ : o₂.Perm (cfr_agencies env))
    (hnd : ((cfr_agencies env).map displayName).Nodup) :
    ∀ k, lookupA k (aggregate_agency_statistics env o₁)
       = lookupA k (aggregate_agency_statistics env o₂) := by
  intro k
  have hnd₁ : (o₁.map displayName).Nodup :=
    ((h₁.map displayName).nodup_iff).mpr hnd
  have hnd₂ : (o₂.map displayName).Nodup :=
    ((h₂.map displayName).nodup_iff).mpr hnd
  unfold aggregate_agency_statistics
  rw [runSchedule_eq_map env o₁ hnd₁, runSchedule_eq_map env o₂ hnd₂]
  apply lookupA_eq_of_perm
  · exact ((h₁.trans h₂.symm).map (process_agency env)).filter _
  · have hsub : List.Sublist
        (keysOf ((o₁.map (process_agency env)).filter
          (fun kv => 0 < kv.2.document_count)))
        (keysOf (o₁.map (process_agency env))) :=
      List.Sublist.map Prod.fst (List.filter_sublist _)
    have hkey : keysOf (o₁.map (process_agency env)) = o₁.map displayName := by
      simp only [keysOf, List.map_map]
      rfl
    exact List.Nodup.sublist hsub (by rwa [hkey])

/-- C7 witness: with two matched agencies of distinct display names, the two
completion orders agree at the key "DOE". -/
theorem aggregate_order_invariant_witness :
    ((cfr_agencies envTwo).reverse.Perm (cfr_agencies envTwo))
    ∧ ((cfr_agencies envTwo).Perm (cfr_agencies envTwo))
    ∧ (((cfr_agencies envTwo).map displayName).Nodup)
    ∧ lookupA "DOE"
        (aggregate_agency_statistics envTwo (cfr_agencies envTwo).reverse)
      = lookupA "DOE"
        (aggregate_agency_statistics envTwo (cfr_agencies envTwo)) :=
  ⟨List.reverse_perm _, List.Perm.refl _, by decide,
   aggregate_order_invariant envTwo (cfr_agencies envTwo).reverse
     (cfr_agencies envTwo) (List.reverse_perm _) (List.Perm.refl _)
     (by decide) "DOE"⟩

end FedReg

namespace RegApi

/-- C10: on a populated cache, the per-agency lookup returns the first cached
agency whose lowercased stored name contains the lowercased query, and the
404 not-found body when no stored name contains it. -/
theorem get_agency_regulations_lookup_spec :
    ∀ (fetched : RegData) (now : Int) (q : String) (t : Option Int)
      (d : RegData),
      (∀ a : FAgency,
        (get_agency_regulations fetched now q ⟨t, some d⟩).1 = Sum.inl a →
          FedReg.strIn (FedReg.pyLower q) (FedReg.pyLower a.agency_name) = true
          ∧ ∃ l₁ l₂, d.agencies = l₁ ++ a :: l₂
            ∧ ∀ b ∈ l₁,
                FedReg.strIn (FedReg.pyLower q) (FedReg.pyLower b.agency_name)
                  = false)
      ∧ ((∀ a ∈ d.agencies,
            FedReg.strIn (FedReg.pyLower q) (FedReg.pyLower a.agency_name)
              = false) →
          (get_agency_regulations fetched now q ⟨t, some d⟩).1
            = Sum.inr (404, "Agency not found: " ++ q)) := by
  intro fetched now q t d
  cases hf : d.agencies.find?
      (fun a => FedReg.strIn (FedReg.pyLower q) (FedReg.pyLower a.agency_name))
    with
  | some a₀ =>
    have h1 : (get_agency_regulations fetched now q ⟨t, some d⟩).1
        = Sum.inl a₀ := by
      simp [get_agency_regulations, hf]
    constructor
    · intro a ha
      rw [h1] at ha
      obtain rfl : a₀ = a := by
        cases ha
        rfl
      obtain ⟨hp, l₁, l₂, hsplit, hfirst⟩ := List.find?_eq_some.mp hf
      refine ⟨hp, l₁, l₂, hsplit, fun b hb => ?_⟩
      simpa using hfirst b hb
    · intro hall
      rw [List.find?_eq_none.mpr (fun x hx => by simp [hall x hx])] at hf
      cases hf
  | none =>
    constructor
    · intro a ha
      have h1 : (get_agency_regulations fetched now q ⟨t, some d⟩).1
          = Sum.inr (404, "Agency not found: " ++ q) := by
        simp [get_agency_regulations, hf]
      rw [h1] at ha
      cases ha
    · intro _
      simp [get_agency_regulations, hf]

/-- C10 witness: the query "energy" finds the single cached agency (its
stored name contains it case-insensitively), and the query "zzz" yields the
404 body. -/
theorem get_agency_regulations_lookup_witness :
    ((get_agency_regulations ⟨[sampleDOE]⟩ 0 "energy"
        ⟨some 0, some ⟨[sampleDOE]⟩⟩).1 = Sum.inl sampleDOE)
    ∧ (FedReg.strIn (FedReg.pyLower "energy")
        (FedReg.pyLower sampleDOE.agency_name) = true
       ∧ ∃ l₁ l₂, (⟨[sampleDOE]⟩ : RegData).agencies = l₁ ++ sampleDOE :: l₂
         ∧ ∀ b ∈ l₁, FedReg.strIn (FedReg.pyLower "energy")
             (FedReg.pyLower b.agency_name) = false)
    ∧ (∀ a ∈ (⟨[sampleDOE]⟩ : RegData).agencies,
        FedReg.strIn (FedReg.pyLower "zzz") (FedReg.pyLower a.agency_name)
          = false)
    ∧ (get_agency_regulations ⟨[sampleDOE]⟩ 0 "zzz"
        ⟨some 0, some ⟨[sampleDOE]⟩⟩).1
        = Sum.inr (404, "Agency not found: " ++ "zzz") := by
  have h1 : (get_agency_regulations ⟨[sampleDOE]⟩ 0 "energy"
      ⟨some 0, some ⟨[sampleDOE]⟩⟩).1 = Sum.inl sampleDOE := rfl
  have h2 : ∀ a ∈ (⟨[sampleDOE]⟩ : RegData).agencies,
      FedReg.strIn (FedReg.pyLower "zzz") (FedReg.pyLower a.agency_name)
        = false := by decide
  exact ⟨h1,
    (get_agency_regulations_lookup_spec ⟨[sampleDOE]⟩ 0 "energy" (some 0)
      ⟨[sampleDOE]⟩).1 sampleDOE h1,
    h2,
    (get_agency_regulations_lookup_spec ⟨[sampleDOE]⟩ 0 "zzz" (some 0)
      ⟨[sampleDOE]⟩).2 h2⟩

end RegApi
